import Mathlib

/-!
Verification development for the Vortex-AUV LOS guidance node
(`src/motion/los_guidance/scripts/los_guidance_backstepping.py`).

The Python classes `LOS` and `LosPathFollowing` are embedded shallowly:
mutable objects become immutable Lean structures, and every mutating
method becomes a function returning the updated structure (together with
the method's return value when it has one).  Python floats are modelled
by real numbers.  Division follows Lean's convention `x / 0 = 0`; the
only place this matters is the unguarded division by the look-ahead
distance `delta`, which is discussed at the relevant theorems.

The `ReferenceModel` class (module `reference_model.discrete_tustin`) is
not among the sources of this repository; the guidance node only
constructs it and calls its `discreteTustinMSD` method.  It is therefore
kept abstract here as a `FilterSpec` parameter (an internal state type,
a constructor, and a step function), so every theorem about the wrap
logic holds for an arbitrary filter, exactly as the node treats it.
-/

noncomputable section

namespace VortexAUV

open Real

/-- State of the Python `LOS` class.  The fields above `u_dot` are the
ones assigned in `LOS.__init__`; the remaining fields are created later
by `updateState` / `lookaheadBasedSteering` (Python instance attributes)
and are given here from the start, defaulting to `0` in `LOS.init`. -/
structure LOS where
  h : ℝ
  u : ℝ
  x : ℝ
  y : ℝ
  z : ℝ
  x_k : ℝ
  y_k : ℝ
  x_kp1 : ℝ
  y_kp1 : ℝ
  z_d : ℝ
  speed : ℝ
  R : ℝ
  delta : ℝ
  u_dot : ℝ
  v : ℝ
  w : ℝ
  psi : ℝ
  r : ℝ
  t : ℝ
  y_delta : ℝ
  x_delta : ℝ
  alpha : ℝ
  s : ℝ
  e : ℝ
  chi_p : ℝ
  chi_r : ℝ
  chi_d : ℝ

/-- `LOS.__init__`: `h = 0.05`, `R = 0.5`, `delta = 1.0 * Lpp` with
`Lpp = 0.7`; attributes not assigned by the constructor are `0`. -/
def LOS.init : LOS :=
  { h := 0.05, u := 0, x := 0, y := 0, z := 0, x_k := 0, y_k := 0,
    x_kp1 := 0, y_kp1 := 0, z_d := 0, speed := 0, R := 0.5,
    delta := 1.0 * 0.7, u_dot := 0, v := 0, w := 0, psi := 0, r := 0,
    t := 0, y_delta := 0, x_delta := 0, alpha := 0, s := 0, e := 0,
    chi_p := 0, chi_r := 0, chi_d := 0 }

/-- `LOS.updateState(x, y, z, u, v, w, psi, r, time)`: overwrite the
stored state; `u_dot = (u - self.u) / self.h` uses the configured
period `h`, not the supplied timestamps. -/
def LOS.updateState (l : LOS) (x y z u v w psi r time : ℝ) : LOS :=
  { l with x := x, y := y, z := z,
           u_dot := (u - l.u) / l.h, u := u, v := v, w := w,
           psi := psi, r := r, t := time }

/-- `LOS.setWayPoints(x_k, y_k, x_kp1, y_kp1)`. -/
def LOS.setWayPoints (l : LOS) (x_k y_k x_kp1 y_kp1 : ℝ) : LOS :=
  { l with x_k := x_k, y_k := y_k, x_kp1 := x_kp1, y_kp1 := y_kp1 }

/-- `LOS.distance()`: 2D Euclidean distance from the current position
to the next waypoint (`z` is ignored). -/
def LOS.distance (l : LOS) : ℝ :=
  Real.sqrt ((l.x_kp1 - l.x) ^ 2 + (l.y_kp1 - l.y) ^ 2)

/-- `LOS.sphereOfAcceptance()`: `distance() < R` (strict). -/
def LOS.sphereOfAcceptance (l : LOS) : Prop :=
  l.distance < l.R

instance (l : LOS) : Decidable l.sphereOfAcceptance :=
  inferInstanceAs (Decidable (l.distance < l.R))

/-- `np.arctan2(y, x)`: the four-quadrant arctangent with
`arctan2(0, 0) = 0`. -/
def atan2 (y x : ℝ) : ℝ :=
  if 0 < x then Real.arctan (y / x)
  else if x < 0 then
    if 0 ≤ y then Real.arctan (y / x) + Real.pi
    else Real.arctan (y / x) - Real.pi
  else
    if 0 < y then Real.pi / 2
    else if y < 0 then -(Real.pi / 2)
    else 0

/-- `LOS.getEpsilonVector()`: `R(alpha)^T · (p_t - p_k)` where
`R(alpha) = [[cos, -sin], [sin, cos]]`; reads the stored `alpha`.
First component: along-track `s`; second: cross-track `e`. -/
def LOS.getEpsilonVector (l : LOS) : ℝ × ℝ :=
  (Real.cos l.alpha * (l.x - l.x_k) + Real.sin l.alpha * (l.y - l.y_k),
   -Real.sin l.alpha * (l.x - l.x_k) + Real.cos l.alpha * (l.y - l.y_k))

/-- `LOS.lookaheadBasedSteering()`: sets `y_delta`, `x_delta`, `alpha`,
`s`, `e`, `chi_p`, `chi_r`, `chi_d` on the object and returns `chi_d`.
There is no guard on `delta`; `chi_r = arctan(-e / delta)` is computed
unconditionally. -/
def LOS.lookaheadBasedSteering (l : LOS) : LOS × ℝ :=
  let y_delta := l.y_kp1 - l.y_k
  let x_delta := l.x_kp1 - l.x_k
  let l1 : LOS := { l with y_delta := y_delta, x_delta := x_delta,
                           alpha := atan2 y_delta x_delta }
  let eps := l1.getEpsilonVector
  let l2 : LOS := { l1 with s := eps.1, e := eps.2, chi_p := l1.alpha,
                            chi_r := Real.arctan (-eps.2 / l1.delta) }
  let l3 : LOS := { l2 with chi_d := l2.chi_p + l2.chi_r }
  (l3, l3.chi_d)

/-- The 5-component shaped trajectory `x_d` produced by the reference
model: `(u_d, u_d_dot, psi_d, r_d, r_d_dot)` (indices 0..4 of the
Python array). -/
structure Traj where
  u_d : ℝ
  u_d_dot : ℝ
  psi_d : ℝ
  r_d : ℝ
  r_d_dot : ℝ

/-- Modelled from the spec: the `ReferenceModel` class
(`reference_model.discrete_tustin`), whose source is not part of this
repository, is a discrete second-order filter with persistent internal
state, constructed from an initial `(speed, heading)` pair and the
update period `h`, and stepped by `discreteTustinMSD` on a target
`(speed, heading)` pair, yielding the 5-component shaped trajectory.
It is kept fully abstract: `M` is the filter's internal state type,
`init u psi h` models `ReferenceModel(np.array((u, psi)), h)`, and
`step m speed target` models `m.discreteTustinMSD(np.array((speed,
target)))`, returning the successor state and the output. -/
structure FilterSpec (M : Type) where
  init : ℝ → ℝ → ℝ → M
  step : M → ℝ → ℝ → M × Traj

/-- The payload of a `LosPathFollowingGoal`. -/
structure Goal where
  next_x : ℝ
  next_y : ℝ
  forward_speed : ℝ
  desired_depth : ℝ
  sphereOfAcceptance : ℝ

/-- The fields of an `/odometry/filtered` message that the node reads.
The quaternion-to-Euler conversion `quat2euler` (external `tf` library)
is abstracted: `yaw` is the extracted Euler yaw angle. -/
structure OdomMsg where
  px : ℝ
  py : ℝ
  pz : ℝ
  vx : ℝ
  vy : ℝ
  vz : ℝ
  yaw : ℝ
  wz : ℝ
  t : ℝ

/-- State of the Python `LosPathFollowing` wrapper: the goal-in-progress
flag, the owned `LOS` object, the wrapper-level `psi` and `psi_ref`
attributes, and the current `ReferenceModel` instance. -/
structure LosPathFollowing (M : Type) where
  flag : Bool
  los : LOS
  psi : ℝ
  psi_ref : ℝ
  refModel : M

/-- Lines 315-319 of `fixHeadingWrapping`: with `e = psi - psi_ref`,
subtract `2*pi` from `psi_ref` when `e < -pi`, and add `2*pi` when
`e > pi` (two sequential `if`s over the same `e`). -/
def wrapPsiRef (psi psi_ref : ℝ) : ℝ :=
  let e := psi - psi_ref
  let p1 := if e < -Real.pi then psi_ref - 2 * Real.pi else psi_ref
  if e > Real.pi then p1 + 2 * Real.pi else p1

/-- Lines 326-334 of `fixHeadingWrapping`: with `e = psi - psi_d` for
the raw output's `psi_d`, if `e > pi` replace the reference model by a
fresh one initialised to the vehicle's current `(u, psi)` and re-run it
on `(speed, psi_d - 2*pi)`; if `e < -pi`, the same with
`psi_d + 2*pi`.  Two sequential `if`s over the same `e`; the second
reads the locally updated `psi_d` (first component of `r1`). -/
def postWrap {M : Type} (F : FilterSpec M) (los : LOS) (psi : ℝ)
    (rm : M) (x_d : Traj) : M × Traj :=
  let e := psi - x_d.psi_d
  let r1 : ℝ × M × Traj :=
    if e > Real.pi then
      let pd := x_d.psi_d - 2 * Real.pi
      let q := F.step (F.init los.u los.psi los.h) los.speed pd
      (pd, q.1, q.2)
    else (x_d.psi_d, rm, x_d)
  if e < -Real.pi then
    let pd := r1.1 + 2 * Real.pi
    let q := F.step (F.init los.u los.psi los.h) los.speed pd
    (q.1, q.2)
  else (r1.2.1, r1.2.2)

/-- `LosPathFollowing.fixHeadingWrapping()`: adjust `self.psi_ref`
(lines 315-319), feed `(speed, psi_ref)` to the reference model
(line 323), then apply the post-filter wrap check (lines 326-334);
returns the (possibly re-run) output `x_d`. -/
def LosPathFollowing.fixHeadingWrapping {M : Type} (F : FilterSpec M)
    (ns : LosPathFollowing M) : LosPathFollowing M × Traj :=
  let pr := wrapPsiRef ns.psi ns.psi_ref
  let p := F.step ns.refModel ns.los.speed pr
  let r := postWrap F ns.los ns.psi p.1 p.2
  ({ ns with psi_ref := pr, refModel := r.1 }, r.2)

/-- The unconditional head of `callback` (lines 354-362): extract the
yaw, `updateState`, and overwrite `self.psi_ref` with the fresh
`lookaheadBasedSteering()` return value. -/
def LosPathFollowing.tickPrep {M : Type} (ns : LosPathFollowing M)
    (msg : OdomMsg) : LosPathFollowing M :=
  let psi := msg.yaw
  let los1 := ns.los.updateState msg.px msg.py msg.pz msg.vx msg.vy
      msg.vz psi msg.wz msg.t
  let pr := los1.lookaheadBasedSteering
  { ns with psi := psi, los := pr.1, psi_ref := pr.2 }

/-- `LosPathFollowing.statusActionGoal()`: publish the distance as
feedback (returned here) and clear the flag when the sphere of
acceptance is reached. -/
def LosPathFollowing.statusActionGoal {M : Type}
    (ns : LosPathFollowing M) : LosPathFollowing M × ℝ :=
  (if ns.los.sphereOfAcceptance then { ns with flag := false } else ns,
   ns.los.distance)

/-- `LosPathFollowing.callback(msg)`: run the unconditional head; when
the flag is set, run `fixHeadingWrapping` and `statusActionGoal` and
emit the shaped trajectory (message publication and the external
control law are outside this model). -/
def LosPathFollowing.callback {M : Type} (F : FilterSpec M)
    (ns : LosPathFollowing M) (msg : OdomMsg) :
    LosPathFollowing M × Option Traj :=
  let ns1 := ns.tickPrep msg
  if ns1.flag then
    let p := ns1.fixHeadingWrapping F
    ((p.1.statusActionGoal).1, some p.2)
  else (ns1, none)

/-- `LosPathFollowing.goalCB()`: unconditionally set the flag, set
`previous := current position` and `next := goal waypoint`, copy the
speed, depth and radius from the payload, and construct a fresh
reference model from the current `(u, psi)`. -/
def LosPathFollowing.goalCB {M : Type} (F : FilterSpec M)
    (ns : LosPathFollowing M) (g : Goal) : LosPathFollowing M :=
  let los1 : LOS :=
    { ns.los with x_k := ns.los.x, y_k := ns.los.y,
                  x_kp1 := g.next_x, y_kp1 := g.next_y,
                  speed := g.forward_speed, z_d := g.desired_depth,
                  R := g.sphereOfAcceptance }
  { ns with flag := true, los := los1,
            refModel := F.init ns.los.u ns.los.psi ns.los.h }

/-- `LosPathFollowing.preemptCB()` when preemption was requested:
clear the flag. -/
def LosPathFollowing.preemptCB {M : Type} (ns : LosPathFollowing M) :
    LosPathFollowing M :=
  { ns with flag := false }

/-- A concrete reference-model instance used to evaluate the wrap and
goal logic at specific inputs: trivial internal state and constant zero
output.  The theorems below hold for every `FilterSpec`; this one only
serves to instantiate them. -/
def trivFilter : FilterSpec Unit :=
  { init := fun _ _ _ => (), step := fun _ _ _ => ((), ⟨0, 0, 0, 0, 0⟩) }

/-- A vehicle sitting at `(3, 4)` aiming for waypoint `(0, 0)` with
`R = 5`: the distance is exactly `R`. -/
def boundaryLos : LOS :=
  { LOS.init with x := 3, y := 4, x_kp1 := 0, y_kp1 := 0, R := 5 }

/-- The same geometry with `R = 6`: the distance is `R - 1`. -/
def insideLos : LOS :=
  { LOS.init with x := 3, y := 4, x_kp1 := 0, y_kp1 := 0, R := 6 }

/-- A node state whose vehicle sits at `(1, 2)` with no active goal and
a stale next waypoint `x_kp1 = 9`. -/
def degenNode : LosPathFollowing Unit :=
  { flag := false,
    los := { LOS.init with x := 1, y := 2, x_kp1 := 9 },
    psi := 0, psi_ref := 0, refModel := () }

/-- A goal whose next waypoint `(1, 2)` equals `degenNode`'s current
position: the degenerate goal of the spec. -/
def degenGoal : Goal :=
  { next_x := 1, next_y := 2, forward_speed := 0.3, desired_depth := 1,
    sphereOfAcceptance := 0.25 }

/-- A `LOS` state with look-ahead distance `delta = 0`, a marker value
in `alpha`, segment `(0,0) -> (10,0)` and vehicle at `(0, 1)`. -/
def zeroDeltaLos : LOS :=
  { LOS.init with delta := 0, alpha := 5, x_kp1 := 10, y := 1 }

/-- The spec's concrete geometry: segment previous `(0,0)`, next
`(10,0)`, default `delta = 1.0 * 0.7`, vehicle at `(x, 1)`. -/
def pst (x : ℝ) : LOS :=
  { LOS.init with x := x, y := 1, x_kp1 := 10 }

/-- An active node pursuing segment `(0,0) -> (10,0)` with heading and
reference heading both `0`. -/
def twoTickNode : LosPathFollowing Unit :=
  { flag := true, los := { LOS.init with x_kp1 := 10 },
    psi := 0, psi_ref := 0, refModel := () }

/-- First odometry sample: vehicle at `(0, 0)`, yaw `0`. -/
def tickMsg1 : OdomMsg :=
  { px := 0, py := 0, pz := 0, vx := 0, vy := 0, vz := 0,
    yaw := 0, wz := 0, t := 0 }

/-- Second odometry sample: vehicle at `(0, 1)`, yaw `0`. -/
def tickMsg2 : OdomMsg :=
  { px := 0, py := 1, pz := 0, vx := 0, vy := 0, vz := 0,
    yaw := 0, wz := 0, t := 0.05 }

/-- A quiescent node: heading and reference heading agree. -/
def alignedNode : LosPathFollowing Unit :=
  { flag := true, los := LOS.init, psi := 1, psi_ref := 1,
    refModel := () }

/-- A node whose measured heading is `4 * pi` ahead of its reference
heading: initial separation above `3 * pi`. -/
def farNode : LosPathFollowing Unit :=
  { flag := true, los := LOS.init, psi := 4 * Real.pi, psi_ref := 0,
    refModel := () }

/-- A node whose measured heading is `4` while the raw filter output
heading is `0`: the post-filter error exceeds `pi`. -/
def postNode : LosPathFollowing Unit :=
  { flag := true, los := LOS.init, psi := 4, psi_ref := 0,
    refModel := () }

/-! ### Helper lemmas (shared across the claim theorems) -/

theorem wrapPsiRef_of_lt {psi pr : ℝ} (h : psi - pr < -Real.pi) :
    wrapPsiRef psi pr = pr - 2 * Real.pi := by
  have hp := Real.pi_pos
  have h2 : ¬(psi - pr > Real.pi) := by linarith
  simp only [wrapPsiRef]
  rw [if_neg h2, if_pos h]

theorem wrapPsiRef_of_gt {psi pr : ℝ} (h : psi - pr > Real.pi) :
    wrapPsiRef psi pr = pr + 2 * Real.pi := by
  have hp := Real.pi_pos
  have h1 : ¬(psi - pr < -Real.pi) := by linarith
  simp only [wrapPsiRef]
  rw [if_pos h, if_neg h1]

theorem wrapPsiRef_of_mid {psi pr : ℝ} (h1 : ¬(psi - pr < -Real.pi))
    (h2 : ¬(psi - pr > Real.pi)) : wrapPsiRef psi pr = pr := by
  simp only [wrapPsiRef]
  rw [if_neg h2, if_neg h1]

theorem fixHeadingWrapping_psi_ref {M : Type} (F : FilterSpec M)
    (ns : LosPathFollowing M) :
    (ns.fixHeadingWrapping F).1.psi_ref = wrapPsiRef ns.psi ns.psi_ref :=
  rfl

theorem fixHeadingWrapping_refModel {M : Type} (F : FilterSpec M)
    (ns : LosPathFollowing M) :
    (ns.fixHeadingWrapping F).1.refModel
      = (postWrap F ns.los ns.psi
          (F.step ns.refModel ns.los.speed (wrapPsiRef ns.psi ns.psi_ref)).1
          (F.step ns.refModel ns.los.speed (wrapPsiRef ns.psi ns.psi_ref)).2).1 :=
  rfl

theorem fixHeadingWrapping_out {M : Type} (F : FilterSpec M)
    (ns : LosPathFollowing M) :
    (ns.fixHeadingWrapping F).2
      = (postWrap F ns.los ns.psi
          (F.step ns.refModel ns.los.speed (wrapPsiRef ns.psi ns.psi_ref)).1
          (F.step ns.refModel ns.los.speed (wrapPsiRef ns.psi ns.psi_ref)).2).2 :=
  rfl

theorem postWrap_of_gt {M : Type} (F : FilterSpec M) (los : LOS)
    {psi : ℝ} (rm : M) {xd : Traj} (h : psi - xd.psi_d > Real.pi) :
    postWrap F los psi rm xd
      = F.step (F.init los.u los.psi los.h) los.speed
          (xd.psi_d - 2 * Real.pi) := by
  have hp := Real.pi_pos
  have h2 : ¬(psi - xd.psi_d < -Real.pi) := by linarith
  simp only [postWrap]
  rw [if_neg h2, if_pos h]

theorem postWrap_of_lt {M : Type} (F : FilterSpec M) (los : LOS)
    {psi : ℝ} (rm : M) {xd : Traj} (h : psi - xd.psi_d < -Real.pi) :
    postWrap F los psi rm xd
      = F.step (F.init los.u los.psi los.h) los.speed
          (xd.psi_d + 2 * Real.pi) := by
  have hp := Real.pi_pos
  have h2 : ¬(psi - xd.psi_d > Real.pi) := by linarith
  simp only [postWrap]
  rw [if_neg h2, if_pos h]

theorem postWrap_of_mid {M : Type} (F : FilterSpec M) (los : LOS)
    {psi : ℝ} (rm : M) {xd : Traj} (h1 : ¬(psi - xd.psi_d > Real.pi))
    (h2 : ¬(psi - xd.psi_d < -Real.pi)) :
    postWrap F los psi rm xd = (rm, xd) := by
  simp only [postWrap]
  rw [if_neg h2, if_neg h1]

theorem statusActionGoal_psi_ref {M : Type} (ns : LosPathFollowing M) :
    (ns.statusActionGoal).1.psi_ref = ns.psi_ref := by
  simp only [LosPathFollowing.statusActionGoal]
  split <;> rfl

theorem statusActionGoal_los {M : Type} (ns : LosPathFollowing M) :
    (ns.statusActionGoal).1.los = ns.los := by
  simp only [LosPathFollowing.statusActionGoal]
  split <;> rfl

theorem atan2_of_pos_x (y : ℝ) {x : ℝ} (hx : 0 < x) :
    atan2 y x = Real.arctan (y / x) := by
  simp only [atan2]
  rw [if_pos hx]

theorem atan2_zero_ten : atan2 0 10 = 0 := by
  rw [atan2_of_pos_x 0 (by norm_num : (0:ℝ) < 10)]
  norm_num [Real.arctan_zero]

theorem lookahead_alpha (l : LOS) :
    (l.lookaheadBasedSteering).1.alpha
      = atan2 (l.y_kp1 - l.y_k) (l.x_kp1 - l.x_k) := rfl

theorem lookahead_e (l : LOS) :
    (l.lookaheadBasedSteering).1.e
      = -Real.sin (atan2 (l.y_kp1 - l.y_k) (l.x_kp1 - l.x_k)) * (l.x - l.x_k)
        + Real.cos (atan2 (l.y_kp1 - l.y_k) (l.x_kp1 - l.x_k)) * (l.y - l.y_k) :=
  rfl

theorem lookahead_chi_d (l : LOS) :
    (l.lookaheadBasedSteering).2
      = atan2 (l.y_kp1 - l.y_k) (l.x_kp1 - l.x_k)
        + Real.arctan (-(l.lookaheadBasedSteering).1.e / l.delta) := rfl

theorem lookahead_chi_d_eval (l : LOS) (hdy : l.y_kp1 - l.y_k = 0)
    (hdx : l.x_kp1 - l.x_k = 10) :
    (l.lookaheadBasedSteering).2
      = Real.arctan (-(l.y - l.y_k) / l.delta) := by
  have ha : atan2 (l.y_kp1 - l.y_k) (l.x_kp1 - l.x_k) = 0 := by
    rw [hdy, hdx, atan2_zero_ten]
  rw [lookahead_chi_d, ha, lookahead_e, ha]
  simp [Real.sin_zero, Real.cos_zero]

/-! ### Claim theorems -/

/-- C9: `updateState` derives the surge acceleration as
`(u_new - u_previous) / h` with the configured fixed period `h`,
independently of the supplied timestamp, and unconditionally overwrites
every other tracked field with the call's arguments. -/
theorem updateState_overwrites (l : LOS) (x y z u v w psi r t1 t2 : ℝ) :
    (l.updateState x y z u v w psi r t1).u_dot = (u - l.u) / l.h ∧
    (l.updateState x y z u v w psi r t1).u_dot
      = (l.updateState x y z u v w psi r t2).u_dot ∧
    (l.updateState x y z u v w psi r t1).x = x ∧
    (l.updateState x y z u v w psi r t1).y = y ∧
    (l.updateState x y z u v w psi r t1).z = z ∧
    (l.updateState x y z u v w psi r t1).u = u ∧
    (l.updateState x y z u v w psi r t1).v = v ∧
    (l.updateState x y z u v w psi r t1).w = w ∧
    (l.updateState x y z u v w psi r t1).psi = psi ∧
    (l.updateState x y z u v w psi r t1).r = r ∧
    (l.updateState x y z u v w psi r t1).t = t1 :=
  ⟨rfl, rfl, rfl, rfl, rfl, rfl, rfl, rfl, rfl, rfl, rfl⟩

/-- C7: the arrival test is a strict inequality on the 2D Euclidean
distance to the next waypoint: it holds iff `distance < R`, fails when
the distance equals `R` exactly, and holds at `R - eps` for every
`eps > 0`. -/
theorem sphereOfAcceptance_strict (l : LOS) :
    (l.sphereOfAcceptance ↔ l.distance < l.R) ∧
    (l.distance = l.R → ¬ l.sphereOfAcceptance) ∧
    (∀ eps : ℝ, 0 < eps → l.distance = l.R - eps →
      l.sphereOfAcceptance) := by
  refine ⟨Iff.rfl, ?_, ?_⟩
  · intro hd hs
    rw [LOS.sphereOfAcceptance, hd] at hs
    exact lt_irrefl _ hs
  · intro eps heps hd
    rw [LOS.sphereOfAcceptance, hd]
    linarith

/-- Witness for C7 at concrete geometry: vehicle `(3, 4)`, waypoint
`(0, 0)` gives distance `5`; with `R = 5` not arrived, with `R = 6`
(distance `R - 1`) arrived. -/
theorem sphereOfAcceptance_strict_witness :
    ¬ boundaryLos.sphereOfAcceptance ∧ insideLos.sphereOfAcceptance := by
  have h5 : Real.sqrt (((0:ℝ) - 3) ^ 2 + ((0:ℝ) - 4) ^ 2) = 5 := by
    rw [show ((0:ℝ) - 3) ^ 2 + ((0:ℝ) - 4) ^ 2 = 5 ^ 2 by norm_num,
      Real.sqrt_sq (by norm_num : (0:ℝ) ≤ 5)]
  constructor
  · exact (sphereOfAcceptance_strict boundaryLos).2.1 h5
  · exact (sphereOfAcceptance_strict insideLos).2.2 1 one_pos
      (by rw [show insideLos.distance
            = Real.sqrt (((0:ℝ) - 3) ^ 2 + ((0:ℝ) - 4) ^ 2) from rfl, h5,
            show insideLos.R = 6 from rfl]
          norm_num)

/-- C8: the `psi_ref` wrap adjustment is idempotent: when
`|psi - psi_ref| ≤ pi` neither `2 * pi` branch fires, so the pure wrap
step and the `psi_ref` stored by `fixHeadingWrapping` leave `psi_ref`
unchanged. -/
theorem wrap_idempotent {M : Type} (F : FilterSpec M)
    (ns : LosPathFollowing M) (h : |ns.psi - ns.psi_ref| ≤ Real.pi) :
    wrapPsiRef ns.psi ns.psi_ref = ns.psi_ref ∧
    (ns.fixHeadingWrapping F).1.psi_ref = ns.psi_ref := by
  obtain ⟨hl, hr⟩ := abs_le.mp h
  have hw : wrapPsiRef ns.psi ns.psi_ref = ns.psi_ref :=
    wrapPsiRef_of_mid (by linarith) (by linarith)
  exact ⟨hw, (fixHeadingWrapping_psi_ref F ns).trans hw⟩

/-- Witness for C8: at `psi = psi_ref = 1` the heading error is `0`
and the stored `psi_ref` is unchanged. -/
theorem wrap_idempotent_witness :
    (alignedNode.fixHeadingWrapping trivFilter).1.psi_ref
      = alignedNode.psi_ref :=
  (wrap_idempotent trivFilter alignedNode
    (by rw [show alignedNode.psi - alignedNode.psi_ref = 0 by norm_num [alignedNode]]
        simp [Real.pi_pos.le])).2

/-- C2 counterexample: at `psi = 0`, `psi_ref = 4` the error
`e = -4 < -pi`, and the code sets `psi_ref` to `4 - 2 * pi`; the claim
says it is incremented to `4 + 2 * pi`, which is a different value. -/
theorem wrapPsiRef_increment_cex :
    (0:ℝ) - 4 < -Real.pi ∧
    wrapPsiRef 0 4 = 4 - 2 * Real.pi ∧
    wrapPsiRef 0 4 ≠ 4 + 2 * Real.pi := by
  have h4 := Real.pi_lt_four
  have hp := Real.pi_pos
  have h1 : (0:ℝ) - 4 < -Real.pi := by linarith
  have hval : wrapPsiRef 0 4 = 4 - 2 * Real.pi := wrapPsiRef_of_lt h1
  refine ⟨h1, hval, ?_⟩
  rw [hval]
  intro hcontra
  have : Real.pi = 0 := by linarith
  exact Real.pi_ne_zero this

/-- C2 (amended): with `e = psi - psi_ref`, if `e < -pi` then `psi_ref`
is DECREMENTED by `2 * pi`; if `e > pi` it is INCREMENTED by `2 * pi`;
otherwise it is unchanged (the spec sentence has the two signs
swapped). -/
theorem wrapPsiRef_branches (psi pr : ℝ) :
    (psi - pr < -Real.pi → wrapPsiRef psi pr = pr - 2 * Real.pi) ∧
    (psi - pr > Real.pi → wrapPsiRef psi pr = pr + 2 * Real.pi) ∧
    (-Real.pi ≤ psi - pr → psi - pr ≤ Real.pi →
      wrapPsiRef psi pr = pr) := by
  refine ⟨fun h => wrapPsiRef_of_lt h, fun h => wrapPsiRef_of_gt h,
    fun hl hr => wrapPsiRef_of_mid (by linarith) (by linarith)⟩

/-- Witness for the amended C2, at `psi = 0`, `psi_ref = 4`
(so `e = -4 < -pi`): the result is `4 - 2 * pi`. -/
theorem wrapPsiRef_branches_witness :
    wrapPsiRef 0 4 = 4 - 2 * Real.pi :=
  (wrapPsiRef_branches 0 4).1
    (by have := Real.pi_lt_four; linarith)

/-- C6: the post-filter wrap check with `e = psi - psi_d` on the raw
output: if `e > pi`, the reference model is discarded, re-initialised
to the vehicle's current `(u, psi)`, and re-run on the corrected target
`(speed, psi_d - 2 * pi)`; if `e < -pi`, symmetrically with
`psi_d + 2 * pi`; otherwise the raw output and model are returned
unchanged.  The last conjunct records that `fixHeadingWrapping` applies
exactly this check to the raw output of the first filter call. -/
theorem postWrap_branches {M : Type} (F : FilterSpec M) (los : LOS)
    (psi : ℝ) (rm : M) (xd : Traj) (ns : LosPathFollowing M) :
    (psi - xd.psi_d > Real.pi →
      postWrap F los psi rm xd
        = F.step (F.init los.u los.psi los.h) los.speed
            (xd.psi_d - 2 * Real.pi)) ∧
    (psi - xd.psi_d < -Real.pi →
      postWrap F los psi rm xd
        = F.step (F.init los.u los.psi los.h) los.speed
            (xd.psi_d + 2 * Real.pi)) ∧
    (-Real.pi ≤ psi - xd.psi_d → psi - xd.psi_d ≤ Real.pi →
      postWrap F los psi rm xd = (rm, xd)) ∧
    (ns.fixHeadingWrapping F).2
      = (postWrap F ns.los ns.psi
          (F.step ns.refModel ns.los.speed (wrapPsiRef ns.psi ns.psi_ref)).1
          (F.step ns.refModel ns.los.speed (wrapPsiRef ns.psi ns.psi_ref)).2).2 :=
  ⟨fun h => postWrap_of_gt F los rm h,
   fun h => postWrap_of_lt F los rm h,
   fun hl hr => postWrap_of_mid F los rm (by linarith) (by linarith),
   fixHeadingWrapping_out F ns⟩

/-- Witness for C6 at `psi = 4` against a raw output with `psi_d = 0`
(so `e = 4 > pi`): the reset-and-rerun branch is taken. -/
theorem postWrap_branches_witness :
    postWrap trivFilter LOS.init 4 () ⟨0, 0, 0, 0, 0⟩
      = trivFilter.step
          (trivFilter.init LOS.init.u LOS.init.psi LOS.init.h)
          LOS.init.speed ((Traj.mk 0 0 0 0 0).psi_d - 2 * Real.pi) :=
  (postWrap_branches trivFilter LOS.init 4 () ⟨0, 0, 0, 0, 0⟩
      postNode).1
    (by show (4:ℝ) - (0:ℝ) > Real.pi
        have := Real.pi_lt_four
        linarith)

/-- C10: one `fixHeadingWrapping` call moves `psi_ref` by at most one
`2 * pi` step; the two `psi_ref` branches test the same error and are
mutually exclusive, as are the two post-filter branches, so at most one
reset-and-rerun happens (the stored model is the un-reset stepped model
or exactly one fresh-reset run); and when the initial separation
exceeds `3 * pi`, one call does not restore `|psi - psi_ref| ≤ pi`. -/
theorem fixHeadingWrapping_single_step {M : Type} (F : FilterSpec M)
    (ns : LosPathFollowing M) :
    ((ns.fixHeadingWrapping F).1.psi_ref = ns.psi_ref ∨
     (ns.fixHeadingWrapping F).1.psi_ref = ns.psi_ref - 2 * Real.pi ∨
     (ns.fixHeadingWrapping F).1.psi_ref = ns.psi_ref + 2 * Real.pi) ∧
    ¬(ns.psi - ns.psi_ref < -Real.pi ∧ ns.psi - ns.psi_ref > Real.pi) ∧
    ¬(ns.psi - (F.step ns.refModel ns.los.speed
          (wrapPsiRef ns.psi ns.psi_ref)).2.psi_d > Real.pi ∧
      ns.psi - (F.step ns.refModel ns.los.speed
          (wrapPsiRef ns.psi ns.psi_ref)).2.psi_d < -Real.pi) ∧
    ((ns.fixHeadingWrapping F).1.refModel
        = (F.step ns.refModel ns.los.speed
            (wrapPsiRef ns.psi ns.psi_ref)).1 ∨
     (ns.fixHeadingWrapping F).1.refModel
        = (F.step (F.init ns.los.u ns.los.psi ns.los.h) ns.los.speed
            ((F.step ns.refModel ns.los.speed
                (wrapPsiRef ns.psi ns.psi_ref)).2.psi_d - 2 * Real.pi)).1 ∨
     (ns.fixHeadingWrapping F).1.refModel
        = (F.step (F.init ns.los.u ns.los.psi ns.los.h) ns.los.speed
            ((F.step ns.refModel ns.los.speed
                (wrapPsiRef ns.psi ns.psi_ref)).2.psi_d + 2 * Real.pi)).1) ∧
    (|ns.psi - ns.psi_ref| > 3 * Real.pi →
      |ns.psi - (ns.fixHeadingWrapping F).1.psi_ref| > Real.pi) := by
  have hp := Real.pi_pos
  refine ⟨?_, ?_, ?_, ?_, ?_⟩
  · rw [fixHeadingWrapping_psi_ref]
    rcases lt_or_le (ns.psi - ns.psi_ref) (-Real.pi) with h | h1
    · exact Or.inr (Or.inl (wrapPsiRef_of_lt h))
    rcases lt_or_le Real.pi (ns.psi - ns.psi_ref) with h | h2
    · exact Or.inr (Or.inr (wrapPsiRef_of_gt h))
    · exact Or.inl (wrapPsiRef_of_mid (by linarith) (by linarith))
  · rintro ⟨h1, h2⟩
    linarith
  · rintro ⟨h1, h2⟩
    linarith
  · rw [fixHeadingWrapping_refModel]
    rcases lt_or_le Real.pi (ns.psi - (F.step ns.refModel ns.los.speed
        (wrapPsiRef ns.psi ns.psi_ref)).2.psi_d) with h | h1
    · exact Or.inr (Or.inl (by rw [postWrap_of_gt F ns.los _ h]))
    rcases lt_or_le (ns.psi - (F.step ns.refModel ns.los.speed
        (wrapPsiRef ns.psi ns.psi_ref)).2.psi_d) (-Real.pi) with h | h2
    · exact Or.inr (Or.inr (by rw [postWrap_of_lt F ns.los _ h]))
    · exact Or.inl (by
        rw [postWrap_of_mid F ns.los _ (by linarith) (by linarith)])
  · intro hfar
    rw [fixHeadingWrapping_psi_ref]
    rcases le_or_lt 0 (ns.psi - ns.psi_ref) with h0 | h0
    · rw [abs_of_nonneg h0] at hfar
      have hgt : ns.psi - ns.psi_ref > Real.pi := by linarith
      rw [wrapPsiRef_of_gt hgt]
      have hx : ns.psi - (ns.psi_ref + 2 * Real.pi) > Real.pi := by
        linarith
      exact lt_of_lt_of_le hx (le_abs_self _)
    · rw [abs_of_neg h0] at hfar
      have hlt : ns.psi - ns.psi_ref < -Real.pi := by linarith
      rw [wrapPsiRef_of_lt hlt]
      have hneg : ns.psi - (ns.psi_ref - 2 * Real.pi) < 0 := by linarith
      rw [abs_of_neg hneg]
      linarith

/-- Witness for C10 at `psi = 4 * pi`, `psi_ref = 0` (separation above
`3 * pi`): after one call the separation still exceeds `pi`. -/
theorem fixHeadingWrapping_single_step_witness :
    |farNode.psi - farNode.psi_ref| > 3 * Real.pi ∧
    |farNode.psi - (farNode.fixHeadingWrapping trivFilter).1.psi_ref|
      > Real.pi := by
  have hp := Real.pi_pos
  have hfar : |farNode.psi - farNode.psi_ref| > 3 * Real.pi := by
    rw [show farNode.psi - farNode.psi_ref = 4 * Real.pi from by
      norm_num [farNode]]
    rw [abs_of_nonneg (by linarith)]
    linarith
  exact ⟨hfar,
    (fixHeadingWrapping_single_step trivFilter farNode).2.2.2.2 hfar⟩

/-- C5: for every state with a non-degenerate segment and positive
look-ahead distance, the returned desired heading is
`alpha + arctan(-e / delta)` where `alpha = atan2(dy, dx)` and `e` is
the cross-track component of the position relative to the previous
waypoint under the transposed rotation for `alpha`; and at the spec's
concrete geometry (previous `(0,0)`, next `(10,0)`, `delta = 0.7`,
vehicle at `(x, 1)`) the cross-track error is `1` and the desired
heading is `arctan(-1/0.7)` for every `x`. -/
theorem lookahead_los_law :
    (∀ l : LOS, (l.x_k, l.y_k) ≠ (l.x_kp1, l.y_kp1) → 0 < l.delta →
      (l.lookaheadBasedSteering).2
        = atan2 (l.y_kp1 - l.y_k) (l.x_kp1 - l.x_k)
          + Real.arctan (-(l.lookaheadBasedSteering).1.e / l.delta) ∧
      (l.lookaheadBasedSteering).1.e
        = -Real.sin (atan2 (l.y_kp1 - l.y_k) (l.x_kp1 - l.x_k))
            * (l.x - l.x_k)
          + Real.cos (atan2 (l.y_kp1 - l.y_k) (l.x_kp1 - l.x_k))
            * (l.y - l.y_k)) ∧
    (∀ x : ℝ, ((pst x).lookaheadBasedSteering).1.e = 1 ∧
      ((pst x).lookaheadBasedSteering).2
        = Real.arctan (-(1 / 0.7))) := by
  constructor
  · intro l _ _
    exact ⟨lookahead_chi_d l, lookahead_e l⟩
  · intro x
    have ha : atan2 ((pst x).y_kp1 - (pst x).y_k)
        ((pst x).x_kp1 - (pst x).x_k) = 0 := by
      rw [show (pst x).y_kp1 - (pst x).y_k = 0 from by
            norm_num [pst, LOS.init],
          show (pst x).x_kp1 - (pst x).x_k = 10 from by
            norm_num [pst, LOS.init],
          atan2_zero_ten]
    have he : ((pst x).lookaheadBasedSteering).1.e = 1 := by
      rw [lookahead_e, ha]
      norm_num [pst, LOS.init, Real.sin_zero, Real.cos_zero]
    refine ⟨he, ?_⟩
    rw [lookahead_chi_d, ha, he,
      show (pst x).delta = 1.0 * 0.7 from rfl]
    rw [show (-(1:ℝ) / (1.0 * 0.7)) = -(1 / 0.7) by norm_num]
    ring

/-- Witness for C5 at `x = 0`: the segment `(0,0) -> (10,0)` is
non-degenerate and `delta = 0.7 > 0`, hence the LOS law holds there. -/
theorem lookahead_los_law_witness :
    ((pst 0).lookaheadBasedSteering).2
      = atan2 ((pst 0).y_kp1 - (pst 0).y_k) ((pst 0).x_kp1 - (pst 0).x_k)
        + Real.arctan (-((pst 0).lookaheadBasedSteering).1.e
            / (pst 0).delta) :=
  (lookahead_los_law.1 (pst 0)
    (by norm_num [pst, LOS.init, Prod.ext_iff])
    (by norm_num [pst, LOS.init])).1

/-- C4 counterexample: with `delta = 0` the tick's guidance computation
still runs and mutates state: the `alpha` field (marker value `5`) is
overwritten with the computed path-tangential angle `0`. -/
theorem lookahead_delta_zero_cex :
    zeroDeltaLos.delta = 0 ∧
    (zeroDeltaLos.lookaheadBasedSteering).1.alpha
      ≠ zeroDeltaLos.alpha := by
  refine ⟨rfl, ?_⟩
  rw [lookahead_alpha,
    show zeroDeltaLos.y_kp1 - zeroDeltaLos.y_k = 0 from by
      norm_num [zeroDeltaLos, LOS.init],
    show zeroDeltaLos.x_kp1 - zeroDeltaLos.x_k = 10 from by
      norm_num [zeroDeltaLos, LOS.init],
    atan2_zero_ten,
    show zeroDeltaLos.alpha = 5 from rfl]
  norm_num

/-- C4 (amended): there is no guard on `delta`: even at `delta = 0` the
guidance computation for the tick proceeds and the guidance fields are
written as usual (in this real-valued model the division `-e / 0`
evaluates to `0`; in the floating-point source it yields an infinite or
NaN angle argument). -/
theorem lookahead_no_delta_guard (l : LOS) (h : l.delta = 0) :
    (l.lookaheadBasedSteering).1.alpha
      = atan2 (l.y_kp1 - l.y_k) (l.x_kp1 - l.x_k) ∧
    (l.lookaheadBasedSteering).1.e
      = -Real.sin (atan2 (l.y_kp1 - l.y_k) (l.x_kp1 - l.x_k))
          * (l.x - l.x_k)
        + Real.cos (atan2 (l.y_kp1 - l.y_k) (l.x_kp1 - l.x_k))
          * (l.y - l.y_k) ∧
    (l.lookaheadBasedSteering).2
      = (l.lookaheadBasedSteering).1.alpha
        + Real.arctan (-(l.lookaheadBasedSteering).1.e / l.delta) :=
  ⟨rfl, rfl, rfl⟩

/-- Witness for the amended C4 at the concrete `delta = 0` state. -/
theorem lookahead_no_delta_guard_witness :
    (zeroDeltaLos.lookaheadBasedSteering).1.alpha
      = atan2 (zeroDeltaLos.y_kp1 - zeroDeltaLos.y_k)
          (zeroDeltaLos.x_kp1 - zeroDeltaLos.x_k) :=
  (lookahead_no_delta_guard zeroDeltaLos rfl).1

/-- C1 counterexample: `goalCB` on a goal whose next waypoint `(1, 2)`
equals the vehicle's current position is ACCEPTED anyway: the flag
flips from false (Idle) to true (Active) and the stored next waypoint
is overwritten. -/
theorem goalCB_degenerate_cex :
    degenGoal.next_x = degenNode.los.x ∧
    degenGoal.next_y = degenNode.los.y ∧
    degenNode.flag = false ∧
    (degenNode.goalCB trivFilter degenGoal).flag = true ∧
    (degenNode.goalCB trivFilter degenGoal).los.x_kp1
      ≠ degenNode.los.x_kp1 := by
  refine ⟨rfl, rfl, rfl, rfl, ?_⟩
  show (1:ℝ) ≠ 9
  norm_num

/-- C1 (amended): `goalCB` performs no validation and accepts every
goal, including one whose next waypoint equals the vehicle's current
position: the flag is set, the waypoint segment, speed, depth and
radius are overwritten from the payload, and the reference model is
re-created from the current `(u, psi)`. -/
theorem goalCB_accepts_degenerate {M : Type} (F : FilterSpec M)
    (ns : LosPathFollowing M) (g : Goal)
    (hx : g.next_x = ns.los.x) (hy : g.next_y = ns.los.y) :
    (ns.goalCB F g).flag = true ∧
    (ns.goalCB F g).los.x_k = ns.los.x ∧
    (ns.goalCB F g).los.y_k = ns.los.y ∧
    (ns.goalCB F g).los.x_kp1 = g.next_x ∧
    (ns.goalCB F g).los.y_kp1 = g.next_y ∧
    (ns.goalCB F g).los.speed = g.forward_speed ∧
    (ns.goalCB F g).los.z_d = g.desired_depth ∧
    (ns.goalCB F g).los.R = g.sphereOfAcceptance ∧
    (ns.goalCB F g).refModel = F.init ns.los.u ns.los.psi ns.los.h :=
  ⟨rfl, rfl, rfl, rfl, rfl, rfl, rfl, rfl, rfl⟩

/-- Witness for the amended C1 at the concrete degenerate goal. -/
theorem goalCB_accepts_degenerate_witness :
    (degenNode.goalCB trivFilter degenGoal).flag = true :=
  (goalCB_accepts_degenerate trivFilter degenNode degenGoal rfl rfl).1

/-- C3 (amended): the updated `psi_ref` stored by the earlier tick's
shaping call does NOT enter the later tick's wrap step: `callback`
overwrites `psi_ref` with the freshly computed lookahead heading
`chi_d` before `fixHeadingWrapping` runs, so the callback result is
independent of the incoming `psi_ref`. -/
theorem callback_overwrites_psi_ref {M : Type} (F : FilterSpec M)
    (ns : LosPathFollowing M) (p : ℝ) (msg : OdomMsg) :
    (ns.tickPrep msg).psi_ref
      = ((ns.los.updateState msg.px msg.py msg.pz msg.vx msg.vy msg.vz
          msg.yaw msg.wz msg.t).lookaheadBasedSteering).2 ∧
    LosPathFollowing.callback F { ns with psi_ref := p } msg
      = ns.callback F msg :=
  ⟨rfl, rfl⟩

/-- C3 counterexample: two consecutive active ticks on the segment
`(0,0) -> (10,0)`.  Tick 1 (vehicle at the origin) stores the updated
`psi_ref = 0`; on tick 2 (vehicle at `(0,1)`) the reference heading
entering the wrap step is the freshly recomputed `arctan(-1/0.7)`,
which differs from the stored value. -/
theorem callback_psi_ref_cex :
    (twoTickNode.callback trivFilter tickMsg1).1.psi_ref = 0 ∧
    (((twoTickNode.callback trivFilter tickMsg1).1).tickPrep
        tickMsg2).psi_ref = Real.arctan (-(1 / 0.7)) ∧
    Real.arctan (-(1 / 0.7)) ≠ 0 := by
  have hp := Real.pi_pos
  have hcd : (twoTickNode.tickPrep tickMsg1).psi_ref = 0 := by
    have h0 : (twoTickNode.tickPrep tickMsg1).psi_ref
        = ((twoTickNode.los.updateState 0 0 0 0 0 0 0 0
            0).lookaheadBasedSteering).2 := rfl
    rw [h0, lookahead_chi_d_eval _
      (by show (0:ℝ) - 0 = 0; norm_num)
      (by show (10:ℝ) - 0 = 10; norm_num)]
    show Real.arctan (-((0:ℝ) - 0) / (1.0 * 0.7)) = 0
    norm_num [Real.arctan_zero]
  have h1 : (twoTickNode.callback trivFilter tickMsg1).1.psi_ref = 0 := by
    rw [show (twoTickNode.callback trivFilter tickMsg1).1
        = ((((twoTickNode.tickPrep tickMsg1).fixHeadingWrapping
            trivFilter).1).statusActionGoal).1 from rfl,
      statusActionGoal_psi_ref, fixHeadingWrapping_psi_ref,
      show (twoTickNode.tickPrep tickMsg1).psi = 0 from rfl, hcd]
    exact wrapPsiRef_of_mid
      (by intro hcon
          have hz : (0:ℝ) - 0 = 0 := by norm_num
          rw [hz] at hcon; linarith)
      (by intro hcon
          have hz : (0:ℝ) - 0 = 0 := by norm_num
          rw [hz] at hcon; linarith)
  have hA : (twoTickNode.callback trivFilter tickMsg1).1.los
      = ((twoTickNode.tickPrep tickMsg1).fixHeadingWrapping
          trivFilter).1.los := by
    rw [show (twoTickNode.callback trivFilter tickMsg1).1
        = ((((twoTickNode.tickPrep tickMsg1).fixHeadingWrapping
            trivFilter).1).statusActionGoal).1 from rfl,
      statusActionGoal_los]
  have h2 : (((twoTickNode.callback trivFilter tickMsg1).1).tickPrep
      tickMsg2).psi_ref = Real.arctan (-(1 / 0.7)) := by
    rw [show (((twoTickNode.callback trivFilter tickMsg1).1).tickPrep
          tickMsg2).psi_ref
        = ((((twoTickNode.callback trivFilter tickMsg1).1.los).updateState
            0 1 0 0 0 0 0 0 0.05).lookaheadBasedSteering).2 from rfl,
      hA, lookahead_chi_d_eval _
        (by show (0:ℝ) - 0 = 0; norm_num)
        (by show (10:ℝ) - 0 = 10; norm_num)]
    show Real.arctan (-((1:ℝ) - 0) / (1.0 * 0.7))
        = Real.arctan (-(1 / 0.7))
    norm_num
  refine ⟨h1, h2, ?_⟩
  rw [ne_eq, Real.arctan_eq_zero_iff]
  norm_num

end VortexAUV
